import Mathlib

/-!
Verification of the negotiation/signaling client in `src/client.js`.

The JavaScript client is embedded shallowly: the module-level mutable
variables (`localStream`, `isVideoEnabled`, `isAudioEnabled`,
`peerConnection`) and the DOM pieces the handlers touch become fields of
`ClientState`; every socket handler, WebRTC callback and button handler
becomes a pure function `ClientState → input → ClientState × List Eff`,
where `Eff` records the observable side channel (socket emissions, console
logs, unhandled promise rejections).  Asynchronous promise chains are
represented by their synchronous segments: the body of a `.then` callback
is a separate function receiving the value the platform resolved with, and
the resolution of a fire-and-forget promise is a separate trace event that,
under run-to-completion scheduling, occurs after the synchronous body that
started it.

`RTCPeerConnection` is an external collaborator; the small model `PC`
follows the W3C state rules the code relies on: applying an answer is only
legal in `have-local-offer` signaling state, applying an offer is legal in
`stable` or `have-remote-offer`, and `addIceCandidate` rejects while no
remote description is set.  `leaveRoom` recreates the connection; the
recreation is modelled by a `gen` counter that the fresh connection
increments.  Session descriptions carry a ghost field `originGen` recording
the generation of the connection whose negotiation produced them; the code
never inspects it, it exists only so that statements about stale results
can be written down.
-/

/-- A media track as the toggle handlers see it: its kind
(`"video"` or `"audio"`) and its `enabled` flag. -/
structure Track where
  kind : String
  enabled : Bool
deriving DecidableEq, Repr

/-- A `MediaStream`: the ordered track list. -/
structure MediaStream where
  tracks : List Track
deriving DecidableEq, Repr

/-- `stream.getVideoTracks()`. -/
def MediaStream.getVideoTracks (s : MediaStream) : List Track :=
  s.tracks.filter (fun t => t.kind == "video")

/-- `stream.getAudioTracks()`. -/
def MediaStream.getAudioTracks (s : MediaStream) : List Track :=
  s.tracks.filter (fun t => t.kind == "audio")

/-- Set the `enabled` flag of the first track of the given kind,
leaving every other track untouched (the in-place mutation
`track.enabled = b` performed on `getXTracks()[0]`). -/
def setFirstTrackEnabled : List Track → String → Bool → List Track
  | [], _, _ => []
  | t :: ts, k, b =>
      if t.kind == k then { t with enabled := b } :: ts
      else t :: setFirstTrackEnabled ts k b

/-- An ICE candidate descriptor, opaque to the client. -/
abbrev Candidate := String

/-- A session description.  `descType` and `sdp` mirror the fields the
code forwards verbatim.  `originGen` is a ghost annotation, never read by
any embedded function: the generation of the peer connection whose
negotiation produced this description, used only to state claims about
stale asynchronous results. -/
structure Sdp where
  descType : String
  sdp : String
  originGen : Nat
deriving DecidableEq, Repr

/-- Payload of an outbound socket message. -/
inductive Payload where
  | sdpP (s : Sdp)
  | candP (c : Candidate)
  | joinP (room name : String)
deriving DecidableEq, Repr

/-- Observable effects of one synchronous execution segment. -/
inductive Eff where
  /-- `socket.emit(event, payload)` -/
  | emit (event : String) (p : Payload)
  /-- `console.log(...)` -/
  | log (msg : String)
  /-- `console.error(...)` from a `.catch` handler -/
  | logError (msg : String)
  /-- a promise rejected with no rejection handler attached -/
  | unhandledRejection (msg : String)
  /-- the synchronous call `peerConnection.createOffer(...)`, starting
  platform description generation whose continuation runs later -/
  | startCreateOffer
  /-- the synchronous, un-awaited call
  `peerConnection.setLocalDescription(sdp)` -/
  | startSetLocalDescription (s : Sdp)
  /-- the later resolution of that `setLocalDescription` promise -/
  | resolveSetLocalDescription (s : Sdp)
deriving DecidableEq, Repr

/-- W3C signaling states reachable by this client. -/
inductive SignalingState where
  | stable
  | haveLocalOffer
  | haveRemoteOffer
deriving DecidableEq, Repr

/-- The model of the `RTCPeerConnection` instance currently bound to the
module variable `peerConnection`.  `gen` counts how many times the
connection has been recreated (`new RTCPeerConnection` at module load is
generation 0; each `leaveRoom` installs generation n+1).
`appliedCandidates` records, in order, the remote candidates the
connection accepted; `senders` the local tracks added by `addTrack`. -/
structure PC where
  gen : Nat
  signalingState : SignalingState
  localDescription : Option Sdp
  remoteDescription : Option Sdp
  appliedCandidates : List Candidate
  senders : List Track
deriving DecidableEq, Repr

/-- `new RTCPeerConnection(pc_config)` as generation `g`. -/
def freshPC (g : Nat) : PC :=
  { gen := g
    signalingState := .stable
    localDescription := none
    remoteDescription := none
    appliedCandidates := []
    senders := [] }

/-- `pc.setRemoteDescription(d)` following the W3C state rules: an answer
is accepted only in `have-local-offer` (moving to `stable`); an offer is
accepted in `stable` or `have-remote-offer`; anything else rejects with
`InvalidStateError` and leaves the connection unchanged. -/
def PC.setRemoteDescription (pc : PC) (d : Sdp) : Except String PC :=
  if d.descType == "answer" then
    match pc.signalingState with
    | .haveLocalOffer =>
        .ok { pc with signalingState := .stable, remoteDescription := some d }
    | _ => .error "InvalidStateError: cannot set remote answer in current state"
  else if d.descType == "offer" then
    match pc.signalingState with
    | .stable =>
        .ok { pc with signalingState := .haveRemoteOffer, remoteDescription := some d }
    | .haveRemoteOffer =>
        .ok { pc with signalingState := .haveRemoteOffer, remoteDescription := some d }
    | _ => .error "InvalidStateError: cannot set remote offer in current state"
  else
    .error "TypeError: unknown description type"

/-- `pc.addIceCandidate(c)`: rejects while no remote description has been
applied, otherwise records the candidate. -/
def PC.addIceCandidate (pc : PC) (c : Candidate) : Except String PC :=
  match pc.remoteDescription with
  | none => .error "InvalidStateError: remote description not set"
  | some _ => .ok { pc with appliedCandidates := pc.appliedCandidates ++ [c] }

/-- The mutable module state of `client.js` together with the DOM pieces
the handlers read and write. -/
structure ClientState where
  /-- `let localStream = null` -/
  localStream : Option MediaStream
  /-- `let isVideoEnabled = true` -/
  isVideoEnabled : Bool
  /-- `let isAudioEnabled = true` -/
  isAudioEnabled : Bool
  /-- `let peerConnection = new RTCPeerConnection(pc_config)` -/
  peerConnection : PC
  /-- whether `localVideo.srcObject` holds a stream (the code only ever
  assigns it, nulls it, or tests its truthiness, so presence suffices;
  the stream contents live in `localStream`) -/
  localVideoSrc : Bool
  /-- whether `remoteVideo.srcObject` holds a stream -/
  remoteVideoSrc : Bool
  /-- whether `localPlaceholder` has the `hidden` class -/
  localPlaceholderHidden : Bool
  /-- whether `remotePlaceholder` has the `hidden` class -/
  remotePlaceholderHidden : Bool
  joinBtnDisabled : Bool
  leaveBtnDisabled : Bool
  toggleVideoBtnDisabled : Bool
  toggleAudioBtnDisabled : Bool
  /-- whether `toggleVideoBtn` has the `muted` class -/
  toggleVideoBtnMuted : Bool
  toggleAudioBtnMuted : Bool
  /-- whether the video `icon-on` element is displayed (and `icon-off` hidden) -/
  videoIconOn : Bool
  audioIconOn : Bool
  /-- `connectionStatus.className` -/
  statusClass : String
  /-- `statusText.textContent` -/
  statusText : String
  /-- `errorMsg.textContent` -/
  errorMsg : String
deriving DecidableEq, Repr

/-- The page state at module load: streams absent, toggles enabled,
peer connection generation 0, controls disabled except Join. -/
def initialClientState : ClientState :=
  { localStream := none
    isVideoEnabled := true
    isAudioEnabled := true
    peerConnection := freshPC 0
    localVideoSrc := false
    remoteVideoSrc := false
    localPlaceholderHidden := false
    remotePlaceholderHidden := false
    joinBtnDisabled := false
    leaveBtnDisabled := true
    toggleVideoBtnDisabled := true
    toggleAudioBtnDisabled := true
    toggleVideoBtnMuted := false
    toggleAudioBtnMuted := false
    videoIconOn := true
    audioIconOn := true
    statusClass := "connection-status"
    statusText := "Disconnected"
    errorMsg := "" }

/-- `updateConnectionStatus(state, text)`. -/
def updateConnectionStatus (s : ClientState) (state text : String) : ClientState :=
  { s with statusClass := "connection-status " ++ state, statusText := text }

/-- `toggleVideo()`: early return when no local stream; otherwise flip
`isVideoEnabled`, write it to the first video track, and update the
button class and icons.  No socket traffic, no peer-connection call. -/
def toggleVideo (s : ClientState) : ClientState × List Eff :=
  match s.localStream with
  | none => (s, [])
  | some stream =>
      match stream.getVideoTracks.head? with
      | none => (s, [])
      | some _ =>
          let newEnabled := !s.isVideoEnabled
          let newTracks := setFirstTrackEnabled stream.tracks "video" newEnabled
          ({ s with
              isVideoEnabled := newEnabled
              localStream := some { tracks := newTracks }
              toggleVideoBtnMuted := !newEnabled
              videoIconOn := newEnabled }, [])

/-- `toggleAudio()`: the audio counterpart of `toggleVideo`. -/
def toggleAudio (s : ClientState) : ClientState × List Eff :=
  match s.localStream with
  | none => (s, [])
  | some stream =>
      match stream.getAudioTracks.head? with
      | none => (s, [])
      | some _ =>
          let newEnabled := !s.isAudioEnabled
          let newTracks := setFirstTrackEnabled stream.tracks "audio" newEnabled
          ({ s with
              isAudioEnabled := newEnabled
              localStream := some { tracks := newTracks }
              toggleAudioBtnMuted := !newEnabled
              audioIconOn := newEnabled }, [])

/-- Handler for the socket `connect` event. -/
def onSocketConnect (s : ClientState) : ClientState × List Eff :=
  (updateConnectionStatus s "connected" "Connected",
   [.log "Connected to signaling server!"])

/-- Handler for the socket `disconnect` event. -/
def onSocketDisconnect (s : ClientState) : ClientState × List Eff :=
  (updateConnectionStatus s "disconnected" "Disconnected",
   [.log "Disconnected from signaling server"])

/-- Handler for the socket `connect_error` event. -/
def onSocketConnectError (s : ClientState) : ClientState × List Eff :=
  ({ updateConnectionStatus s "disconnected" "Connection Failed" with
      errorMsg := "Cannot connect to server. Make sure the signaling server is running." },
   [.logError "Connection error:"])

/-- The synchronous part of `createOffer()`: log, then call the platform
`peerConnection.createOffer(...)`; the returned promise's continuation
(`offerThenBody`) runs only when the platform resolves it.  No state is
read or guarded before starting. -/
def createOfferCall (s : ClientState) : ClientState × List Eff :=
  (s, [.log "Creating offer...", .startCreateOffer])

/-- The body of `createOffer`'s `.then(sdp => ...)` callback, as the
ordered list of things it does: it starts `setLocalDescription(sdp)`
without awaiting it, then immediately emits the offer. -/
def offerThenBody (sdp : Sdp) : List Eff :=
  [.startSetLocalDescription sdp, .emit "offer" (.sdpP sdp)]

/-- Running `createOffer`'s `.then` callback against the current module
state: the module variable `peerConnection` is only read inside
`setLocalDescription`, which is not awaited, so the synchronous segment
leaves the state unchanged and produces `offerThenBody sdp`. -/
def createOfferThen (s : ClientState) (sdp : Sdp) : ClientState × List Eff :=
  (s, offerThenBody sdp)

/-- The full observable trace of one `createOffer` resolution cycle under
run-to-completion scheduling: the synchronous `.then` body first, the
resolution of the fire-and-forget `setLocalDescription` promise strictly
after it. -/
def createOfferFullTrace (sdp : Sdp) : List Eff :=
  offerThenBody sdp ++ [.resolveSetLocalDescription sdp]

/-- The body of `createAnswer`'s second `.then(answerSdp => ...)` callback:
log, start `setLocalDescription(answerSdp)` without awaiting it, then
immediately emit the answer. -/
def answerThenBody (answerSdp : Sdp) : List Eff :=
  [.log "Answer created", .startSetLocalDescription answerSdp,
   .emit "answer" (.sdpP answerSdp)]

/-- The full observable trace of the answer-emitting segment of
`createAnswer`, analogous to `createOfferFullTrace`. -/
def createAnswerFullTrace (answerSdp : Sdp) : List Eff :=
  answerThenBody answerSdp ++ [.resolveSetLocalDescription answerSdp]

/-- `createAnswer(sdp)` run to the point where all its awaited stages have
resolved.  The first stage `peerConnection.setRemoteDescription(sdp)` IS
awaited: on success the connection state is updated and the answer stage
runs with the platform-generated description `answerSdp`; on failure the
`.catch` sets the user-visible error.  (`answerSdp` is an input because the
platform, not the client, generates it.) -/
def createAnswerResolved (s : ClientState) (sdp answerSdp : Sdp) :
    ClientState × List Eff :=
  match s.peerConnection.setRemoteDescription sdp with
  | .error e =>
      ({ s with errorMsg := "Failed to establish connection" },
       [.logError e])
  | .ok pc =>
      ({ s with peerConnection := pc },
       .log "Remote description set, creating answer..." :: answerThenBody answerSdp)

/-- Handler for `getOffer`: log, then start `createAnswer(sdp)`.  The
interesting behaviour is in `createAnswerResolved`. -/
def onGetOffer (s : ClientState) (_sdp : Sdp) : ClientState × List Eff :=
  (s, [.log "Received offer"])

/-- Handler for `getAnswer`: log, then call
`peerConnection.setRemoteDescription(sdp)` on the CURRENT connection with
no guard, no `await` and no rejection handler: a rejection is unhandled
and the state is left as it was. -/
def onGetAnswer (s : ClientState) (sdp : Sdp) : ClientState × List Eff :=
  match s.peerConnection.setRemoteDescription sdp with
  | .ok pc => ({ s with peerConnection := pc }, [.log "Received answer"])
  | .error e => (s, [.log "Received answer", .unhandledRejection e])

/-- Handler for `getCandidate`: call
`peerConnection.addIceCandidate(new RTCIceCandidate(candidate))`
immediately on the CURRENT connection; `.then` logs success, `.catch`
logs and swallows the failure.  There is no buffering of any kind. -/
def onGetCandidate (s : ClientState) (c : Candidate) : ClientState × List Eff :=
  match s.peerConnection.addIceCandidate c with
  | .ok pc => ({ s with peerConnection := pc }, [.log "ICE candidate added"])
  | .error e => (s, [.logError e])

/-- Handler for `user_exit`: if a remote stream is attached, detach it and
show the remote placeholder; nothing else is touched. -/
def onUserExit (s : ClientState) (remoteId : String) : ClientState × List Eff :=
  if s.remoteVideoSrc then
    ({ s with remoteVideoSrc := false, remotePlaceholderHidden := false },
     [.log ("User left: " ++ remoteId)])
  else
    (s, [.log ("User left: " ++ remoteId)])

/-- `peerConnection.onicecandidate`: forward a freshly gathered local
candidate through the socket; the null gathering-complete event does
nothing. -/
def onIceCandidate (s : ClientState) (c : Option Candidate) : ClientState × List Eff :=
  match c with
  | some cand => (s, [.log "Sending ICE candidate", .emit "candidate" (.candP cand)])
  | none => (s, [])

/-- `peerConnection.oniceconnectionstatechange`: the switch over
`peerConnection.iceConnectionState`.  Note the `failed` arm reuses the
`disconnected` status class and additionally sets a user-visible error;
states outside the three cases fall through the switch and change
nothing. -/
def onIceConnectionStateChange (s : ClientState) (iceState : String) :
    ClientState × List Eff :=
  let lg := Eff.log ("ICE connection state: " ++ iceState)
  if iceState == "connected" then
    (updateConnectionStatus s "connected" "Peer Connected", [lg])
  else if iceState == "disconnected" then
    (updateConnectionStatus s "disconnected" "Peer Disconnected", [lg])
  else if iceState == "failed" then
    ({ updateConnectionStatus s "disconnected" "Connection Failed" with
        errorMsg := "Peer connection failed. Try rejoining." }, [lg])
  else
    (s, [lg])

/-- The outcome of `navigator.mediaDevices.getUserMedia`, supplied by the
platform: either a stream, or a rejection carrying the DOM error name and
message. -/
inductive MediaResult where
  | ok (stream : MediaStream)
  | err (name message : String)
deriving DecidableEq, Repr

/-- The message `init`'s catch block shows for a media-acquisition
failure, by error name. -/
def mediaErrorMessage (name message : String) : String :=
  if name == "NotAllowedError" then
    "Camera/microphone access denied. Please allow permissions and try again."
  else if name == "NotFoundError" then
    "No camera or microphone found. Please connect a device."
  else
    "Error: " ++ message

/-- `init()` run to completion of its single `await`.  `media` is the
settled outcome of `getUserMedia`; `randName` stands for the random
suffix of the generated display name.  On rejection the catch block only
sets the error message: every statement after the `await` (showing local
video, enabling controls, `addTrack`, handler installation, the `join`
emit, the status update) is skipped. -/
def init (s : ClientState) (media : MediaResult) (randName : String) :
    ClientState × List Eff :=
  let s0 := { s with errorMsg := "" }
  match media with
  | .err name message =>
      ({ s0 with errorMsg := mediaErrorMessage name message },
       [.log "Initializing video chat...", .logError "Error initializing:"])
  | .ok stream =>
      let s1 := { s0 with
        localStream := some stream
        localVideoSrc := true
        localPlaceholderHidden := true
        toggleVideoBtnDisabled := false
        toggleAudioBtnDisabled := false
        leaveBtnDisabled := false
        joinBtnDisabled := true
        peerConnection :=
          { s0.peerConnection with
              senders := s0.peerConnection.senders ++ stream.tracks } }
      (updateConnectionStatus s1 "connected" "In Room",
       [.log "Initializing video chat...",
        .emit "join" (.joinP "1234" ("user_" ++ randName))])

/-- `leaveRoom()`: stop and drop the local stream, detach both videos,
show both placeholders, close the peer connection and replace it with a
freshly constructed one (the next generation), reset the buttons and the
toggle flags, restore the signaling status display, clear the error. -/
def leaveRoom (s : ClientState) : ClientState × List Eff :=
  (updateConnectionStatus
    { s with
        localStream := none
        localVideoSrc := false
        remoteVideoSrc := false
        localPlaceholderHidden := false
        remotePlaceholderHidden := false
        peerConnection := freshPC (s.peerConnection.gen + 1)
        joinBtnDisabled := false
        leaveBtnDisabled := true
        toggleVideoBtnDisabled := true
        toggleAudioBtnDisabled := true
        isVideoEnabled := true
        isAudioEnabled := true
        toggleVideoBtnMuted := false
        toggleAudioBtnMuted := false
        errorMsg := "" }
    "connected" "Connected",
   [.log "Left room"])

/-- Handler for `room_users`: whenever the delivered member list is
non-empty, call `createOffer()` — there is no check of any negotiation
state before doing so. -/
def onRoomUsers (s : ClientState) (data : List String) : ClientState × List Eff :=
  let lg := Eff.log "Users in room:"
  if data.length > 0 then
    let (s1, effs) := createOfferCall s
    (s1, lg :: effs)
  else
    (s, [lg])

/-- Deliver a sequence of remote candidates through the `getCandidate`
handler, one event at a time. -/
def deliverCandidates (s : ClientState) (cs : List Candidate) : ClientState :=
  cs.foldl (fun st c => (onGetCandidate st c).1) s

/-- `new` and `old` track lists agree except that the first track of kind
`k` in `old` (if any) has its `enabled` flag set to `b` in `new`.  Used to
state that a toggle touches exactly one flag of one track. -/
def onlyFirstEnabledSetB (k : String) (b : Bool) : List Track → List Track → Bool
  | [], [] => true
  | t :: ts, t' :: ts' =>
      if t.kind == k then t' == { t with enabled := b } && ts' == ts
      else t' == t && onlyFirstEnabledSetB k b ts ts'
  | _, _ => false

/-- Whether an effect is a socket emission. -/
def isEmit : Eff → Bool
  | .emit _ _ => true
  | _ => false

/-- Whether an effect is the resolution of a `setLocalDescription`
promise. -/
def isResolveSLD : Eff → Bool
  | .resolveSetLocalDescription _ => true
  | _ => false

/-- The property that every socket emission in a trace is preceded by the
resolution of a local-description application — the ordering discipline
the specification prescribes for forwarding offers and answers. -/
def emitOnlyAfterResolve (tr : List Eff) : Prop :=
  ∀ i : Fin tr.length, isEmit (tr.get i) = true →
    ∃ j : Fin tr.length, j.val < i.val ∧ isResolveSLD (tr.get j) = true

/-- A two-track capture stream, as `getUserMedia({video, audio})`
delivers. -/
def demoStream : MediaStream :=
  { tracks := [{ kind := "audio", enabled := true }, { kind := "video", enabled := true }] }

/-- An offer generated by the generation-0 connection. -/
def offer0 : Sdp := { descType := "offer", sdp := "v=0 offer gen0", originGen := 0 }

/-- A second offer generated by the generation-0 connection. -/
def offer1 : Sdp := { descType := "offer", sdp := "v=0 offer gen0 second", originGen := 0 }

/-- The remote answer to `offer0`, belonging to generation 0. -/
def answer0 : Sdp := { descType := "answer", sdp := "v=0 answer gen0", originGen := 0 }

/-- A duplicate remote answer for the same generation. -/
def answer1 : Sdp := { descType := "answer", sdp := "v=0 answer gen0 dup", originGen := 0 }

/-- A remote offer received while waiting as answerer. -/
def offerB : Sdp := { descType := "offer", sdp := "v=0 offer from B", originGen := 0 }

/-- The local answer the platform generates for `offerB`. -/
def answerA : Sdp := { descType := "answer", sdp := "v=0 answer from A", originGen := 0 }

/-- An offer generated by the generation-1 connection installed by
`leaveRoom`. -/
def offerGen1 : Sdp := { descType := "offer", sdp := "v=0 offer gen1", originGen := 1 }

/-- A remote ICE candidate descriptor. -/
def cand0 : Candidate := "candidate:0 1 UDP 2122252543 192.0.2.7 49152 typ host"

/-- State of an offerer that has joined, captured media and sent an offer
that is still outstanding. -/
def sOffering : ClientState :=
  { initialClientState with
      localStream := some demoStream
      localVideoSrc := true
      localPlaceholderHidden := true
      joinBtnDisabled := true
      leaveBtnDisabled := false
      toggleVideoBtnDisabled := false
      toggleAudioBtnDisabled := false
      statusClass := "connection-status connected"
      statusText := "In Room"
      peerConnection :=
        { freshPC 0 with
            signalingState := .haveLocalOffer
            localDescription := some offer0
            senders := demoStream.tracks } }

/-- State of an offerer whose offer has been answered: the remote answer
has been applied and the connection is back in `stable`. -/
def sAnswered : ClientState :=
  { sOffering with
      peerConnection :=
        { sOffering.peerConnection with
            signalingState := .stable
            remoteDescription := some answer0 } }

/-- Mid-call state: negotiation complete and remote media attached. -/
def sMidCall : ClientState :=
  { sAnswered with remoteVideoSrc := true, remotePlaceholderHidden := true }

/-- The state right after `leaveRoom()` runs in `sOffering`: the
generation-1 connection is installed. -/
def sAfterLeave : ClientState := (leaveRoom sOffering).1

/-- The generation-1 session after a new join and a new outstanding
offer — the state a stale generation-0 answer would hit. -/
def sNewOffering : ClientState :=
  { sAfterLeave with
      peerConnection :=
        { sAfterLeave.peerConnection with
            signalingState := .haveLocalOffer
            localDescription := some offerGen1 } }

/-- C10: with no local stream (before a successful join or after leave),
`toggleVideo` and `toggleAudio` return immediately: the state — track
flags, `isVideoEnabled`/`isAudioEnabled`, button classes, icons — is
unchanged and no outbound message is produced. -/
theorem toggle_without_stream_is_noop (s : ClientState)
    (h : s.localStream = none) :
    toggleVideo s = (s, []) ∧ toggleAudio s = (s, []) := by
  constructor <;> simp [toggleVideo, toggleAudio, h]

/-- Witness for C10 at the module-load state. -/
theorem toggle_without_stream_is_noop_witness :
    toggleVideo initialClientState = (initialClientState, []) ∧
    toggleAudio initialClientState = (initialClientState, []) :=
  toggle_without_stream_is_noop initialClientState rfl

/-- C8: when `getUserMedia` rejects during `init`, the engine stays put:
the resulting state differs from the prior one only in the error message
(no join is emitted, no track is added to the connection, no button or
status changes), no socket emission occurs, and the error message shown
to the user is non-empty. -/
theorem init_media_failure_stays_idle (s : ClientState)
    (name message randName : String) :
    (init s (.err name message) randName).1 =
      { s with errorMsg := mediaErrorMessage name message } ∧
    (∀ e ∈ (init s (.err name message) randName).2, isEmit e = false) ∧
    mediaErrorMessage name message ≠ "" := by
  refine ⟨rfl, ?_, ?_⟩
  · intro e he
    simp [init] at he
    rcases he with h | h <;> subst h <;> rfl
  · unfold mediaErrorMessage
    by_cases h1 : name == "NotAllowedError"
    · simp [h1]
    · by_cases h2 : name == "NotFoundError"
      · simp [h1, h2]
      · simp only [h1, h2, Bool.false_eq_true, if_false]
        intro hEq
        have := congrArg String.data hEq
        simp [String.data_append] at this

/-- C7: once an answer has been applied for this session generation (the
connection is back in `stable` with a remote answer in place), a second
`getAnswer` delivery leaves the whole client state unchanged — in
particular the error display — and emits nothing: the unconditional
`setRemoteDescription` call rejects in `stable` state and the code
attaches no rejection handler, so nothing is mutated and no error reaches
the user. -/
theorem second_answer_is_noop (s : ClientState) (dup : Sdp)
    (hstable : s.peerConnection.signalingState = .stable)
    (hprev : ∃ a, s.peerConnection.remoteDescription = some a ∧ a.descType = "answer")
    (hdup : dup.descType = "answer") :
    (onGetAnswer s dup).1 = s ∧
    (∀ e ∈ (onGetAnswer s dup).2, isEmit e = false) := by
  obtain ⟨a, -, -⟩ := hprev
  have hsrd : s.peerConnection.setRemoteDescription dup =
      .error "InvalidStateError: cannot set remote answer in current state" := by
    unfold PC.setRemoteDescription
    rw [hstable]
    simp [hdup]
  constructor
  · simp [onGetAnswer, hsrd]
  · intro e he
    simp [onGetAnswer, hsrd] at he
    rcases he with h | h <;> subst h <;> rfl

/-- Witness for C7: the answered offerer receives a duplicate answer. -/
theorem second_answer_is_noop_witness :
    (onGetAnswer sAnswered answer1).1 = sAnswered :=
  (second_answer_is_noop sAnswered answer1 rfl ⟨answer0, rfl, rfl⟩ rfl).1

/-- C5 counterexample: in a mid-call state, `user_exit` does clear the
remote media reference, but performs no reset of the peer session — the
connection object is bit-for-bit unchanged and still carries the departed
generation's remote answer, so the claimed reset does not happen. -/
theorem user_exit_performs_no_session_reset :
    (onUserExit sMidCall "peerB").1.remoteVideoSrc = false ∧
    (onUserExit sMidCall "peerB").1.peerConnection = sMidCall.peerConnection ∧
    (onUserExit sMidCall "peerB").1.peerConnection.remoteDescription = some answer0 ∧
    sMidCall.peerConnection ≠ freshPC sMidCall.peerConnection.gen := by
  refine ⟨rfl, rfl, rfl, ?_⟩
  intro h
  have := congrArg PC.remoteDescription h
  simp [sMidCall, sAnswered, sOffering, freshPC] at this

/-- C5 amended: the `user_exit` handler only detaches the remote media
and shows the remote placeholder (when remote media was attached); every
other part of the state — the peer connection with all its negotiation
state, the local stream, the controls — is untouched, and nothing is
emitted. -/
theorem user_exit_clears_remote_media_only (s : ClientState) (id : String) :
    (onUserExit s id).1 =
      { s with
          remoteVideoSrc := false
          remotePlaceholderHidden := !s.remoteVideoSrc && s.remotePlaceholderHidden } ∧
    (onUserExit s id).1.peerConnection = s.peerConnection ∧
    (onUserExit s id).1.localStream = s.localStream ∧
    (onUserExit s id).2 = [.log ("User left: " ++ id)] := by
  rcases s with ⟨ls, iv, ia, pc, lvs, rvs, lph, rph, jb, lb, tvb, tab, tvm, tam, vio, aio, sc, st, em⟩
  cases rvs <;> simp [onUserExit]

/-- C6 counterexample: when the transport reports `failed`, the handler
does not derive the `failed` status the specification's mapping requires —
it writes the `disconnected` status class (with the text
`Connection Failed`), so `failed` is mapped to Disconnected, not
Failed. -/
theorem ice_failed_mapped_to_disconnected :
    (onIceConnectionStateChange initialClientState "failed").1.statusClass =
      "connection-status disconnected" ∧
    (onIceConnectionStateChange initialClientState "failed").1.statusClass ≠
      "connection-status failed" ∧
    (onIceConnectionStateChange initialClientState "checking").1 =
      initialClientState := by
  refine ⟨rfl, ?_, rfl⟩
  decide

/-- C6 amended: the handler maps `connected` to the Connected status
(`Peer Connected`), `disconnected` to the Disconnected status
(`Peer Disconnected`), and `failed` also to the Disconnected status class
with text `Connection Failed` plus a user-visible error; any other
connectivity state leaves the displayed status (and everything else)
unchanged, so no status event accompanies those changes. -/
theorem ice_state_mapping (s : ClientState) (iceState : String) :
    (iceState = "connected" →
      (onIceConnectionStateChange s iceState).1 =
        updateConnectionStatus s "connected" "Peer Connected") ∧
    (iceState = "disconnected" →
      (onIceConnectionStateChange s iceState).1 =
        updateConnectionStatus s "disconnected" "Peer Disconnected") ∧
    (iceState = "failed" →
      (onIceConnectionStateChange s iceState).1 =
        { updateConnectionStatus s "disconnected" "Connection Failed" with
            errorMsg := "Peer connection failed. Try rejoining." }) ∧
    (iceState ≠ "connected" → iceState ≠ "disconnected" → iceState ≠ "failed" →
      (onIceConnectionStateChange s iceState).1 = s) := by
  refine ⟨?_, ?_, ?_, ?_⟩
  · intro h; subst h; rfl
  · intro h; subst h; rfl
  · intro h; subst h; rfl
  · intro h1 h2 h3
    unfold onIceConnectionStateChange
    simp [h1, h2, h3]

/-- Witness for C6 amended, at the `failed` and `checking` inputs. -/
theorem ice_state_mapping_witness :
    (onIceConnectionStateChange initialClientState "failed").1 =
      { updateConnectionStatus initialClientState "disconnected" "Connection Failed" with
          errorMsg := "Peer connection failed. Try rejoining." } ∧
    (onIceConnectionStateChange initialClientState "checking").1 = initialClientState := by
  constructor
  · exact (ice_state_mapping initialClientState "failed").2.2.1 rfl
  · exact (ice_state_mapping initialClientState "checking").2.2.2
      (by decide) (by decide) (by decide)

/-- Helper: once a remote description is present, delivering a sequence
of candidates appends them to the applied list in exact arrival order. -/
theorem deliverCandidates_appends (s : ClientState) (cs : List Candidate)
    (h : s.peerConnection.remoteDescription.isSome = true) :
    (deliverCandidates s cs).peerConnection.appliedCandidates =
      s.peerConnection.appliedCandidates ++ cs := by
  induction cs generalizing s with
  | nil => simp [deliverCandidates]
  | cons c cs ih =>
    obtain ⟨d, hd⟩ := Option.isSome_iff_exists.mp h
    have hstep : (onGetCandidate s c).1 =
        { s with peerConnection := { s.peerConnection with
            appliedCandidates := s.peerConnection.appliedCandidates ++ [c] } } := by
      simp [onGetCandidate, PC.addIceCandidate, hd]
    have hrw : deliverCandidates s (c :: cs) =
        deliverCandidates (onGetCandidate s c).1 cs := rfl
    rw [hrw, hstep, ih _ (by simp [hd])]
    simp

/-- C1 counterexample: a candidate delivered before any remote
description exists is not buffered anywhere — the handler's state is
bit-for-bit the pre-delivery state and the candidate is passed straight
to `addIceCandidate`, whose rejection is merely logged; after the remote
description is subsequently applied (the `createAnswer` path), the
applied-candidate list is still empty, so the candidate was discarded,
never applied. -/
theorem early_candidate_dropped_not_buffered :
    (onGetCandidate initialClientState cand0).1 = initialClientState ∧
    (onGetCandidate initialClientState cand0).2 =
      [.logError "InvalidStateError: remote description not set"] ∧
    (createAnswerResolved (onGetCandidate initialClientState cand0).1
        offerB answerA).1.peerConnection.remoteDescription = some offerB ∧
    (createAnswerResolved (onGetCandidate initialClientState cand0).1
        offerB answerA).1.peerConnection.appliedCandidates = [] :=
  ⟨rfl, rfl, rfl, rfl⟩

/-- C1 amended: there is no candidate buffer.  Every `getCandidate`
delivery calls `addIceCandidate` immediately: with no remote description
the call rejects, the error is logged and the candidate is permanently
dropped (the state is unchanged); with a remote description present the
candidate is appended to the connection's applied list at once, and a
whole arrival sequence is applied in exact arrival (FIFO) order. -/
theorem candidates_applied_immediately_never_buffered (s : ClientState)
    (c : Candidate) (cs : List Candidate) :
    (s.peerConnection.remoteDescription = none →
      onGetCandidate s c =
        (s, [.logError "InvalidStateError: remote description not set"])) ∧
    (s.peerConnection.remoteDescription.isSome = true →
      onGetCandidate s c =
        ({ s with peerConnection := { s.peerConnection with
              appliedCandidates := s.peerConnection.appliedCandidates ++ [c] } },
         [.log "ICE candidate added"])) ∧
    (s.peerConnection.remoteDescription.isSome = true →
      (deliverCandidates s cs).peerConnection.appliedCandidates =
        s.peerConnection.appliedCandidates ++ cs) := by
  refine ⟨?_, ?_, ?_⟩
  · intro h
    simp [onGetCandidate, PC.addIceCandidate, h]
  · intro h
    obtain ⟨d, hd⟩ := Option.isSome_iff_exists.mp h
    simp [onGetCandidate, PC.addIceCandidate, hd]
  · intro h
    exact deliverCandidates_appends s cs h

/-- Witness for C1 amended: the empty-description case drops `cand0`,
and in the answered state three candidates arrive and are applied in
order. -/
theorem candidates_applied_immediately_never_buffered_witness :
    onGetCandidate initialClientState cand0 =
      (initialClientState,
       [.logError "InvalidStateError: remote description not set"]) ∧
    (deliverCandidates sAnswered ["c1", "c2", "c3"]).peerConnection.appliedCandidates =
      ["c1", "c2", "c3"] := by
  constructor
  · exact (candidates_applied_immediately_never_buffered
      initialClientState cand0 []).1 rfl
  · have h := (candidates_applied_immediately_never_buffered
      sAnswered cand0 ["c1", "c2", "c3"]).2.2 rfl
    simpa [sAnswered, sOffering, freshPC] using h

/-- C2 counterexample: after `leaveRoom()` installs the generation-1
connection, results belonging to generation 0 are neither detected nor
discarded.  A stale in-flight `createOffer` continuation still forwards
the generation-0 offer through the socket and starts
`setLocalDescription` against the current (new) connection; and once the
new generation has an outstanding offer, a stale generation-0 answer is
applied as the new connection's remote description. -/
theorem stale_results_hit_new_generation :
    sAfterLeave.peerConnection.gen = 1 ∧
    offer0.originGen ≠ sAfterLeave.peerConnection.gen ∧
    Eff.emit "offer" (.sdpP offer0) ∈ (createOfferThen sAfterLeave offer0).2 ∧
    Eff.startSetLocalDescription offer0 ∈ (createOfferThen sAfterLeave offer0).2 ∧
    answer0.originGen ≠ sNewOffering.peerConnection.gen ∧
    (onGetAnswer sNewOffering answer0).1.peerConnection.remoteDescription =
      some answer0 := by
  refine ⟨rfl, by decide, by decide, by decide, by decide, rfl⟩

/-- C2 amended: the code carries no generation token and performs no
staleness detection — every handler and continuation reads the module
variable `peerConnection` at call time and therefore targets the current
transport.  A stale offer continuation still starts
`setLocalDescription` and forwards the stale offer in the new
generation, and a stale answer is applied to the new transport whenever
its signaling state admits an answer. -/
theorem no_generation_isolation (s : ClientState) (sdp ans : Sdp)
    (_hstale : sdp.originGen ≠ s.peerConnection.gen)
    (_hstale2 : ans.originGen ≠ s.peerConnection.gen)
    (hrecv : s.peerConnection.signalingState = .haveLocalOffer)
    (hans : ans.descType = "answer") :
    Eff.emit "offer" (.sdpP sdp) ∈ (createOfferThen s sdp).2 ∧
    Eff.startSetLocalDescription sdp ∈ (createOfferThen s sdp).2 ∧
    (onGetAnswer s ans).1.peerConnection.remoteDescription = some ans := by
  refine ⟨by simp [createOfferThen, offerThenBody],
          by simp [createOfferThen, offerThenBody], ?_⟩
  have hsrd : s.peerConnection.setRemoteDescription ans =
      .ok { s.peerConnection with
              signalingState := .stable, remoteDescription := some ans } := by
    unfold PC.setRemoteDescription
    rw [hrecv]
    simp [hans]
  simp [onGetAnswer, hsrd]

/-- Witness for C2 amended: the generation-1 offerer state receives the
generation-0 leftovers. -/
theorem no_generation_isolation_witness :
    Eff.emit "offer" (.sdpP offer0) ∈ (createOfferThen sNewOffering offer0).2 ∧
    Eff.startSetLocalDescription offer0 ∈ (createOfferThen sNewOffering offer0).2 ∧
    (onGetAnswer sNewOffering answer0).1.peerConnection.remoteDescription =
      some answer0 :=
  no_generation_isolation sNewOffering offer0 answer0
    (by decide) (by decide) rfl rfl

/-- C3 counterexample: in a state that is already Negotiating (an offer
is outstanding: `have-local-offer` with a local offer in place), a
further `room_users` event with a non-empty member list starts
`createOffer()` again, and the continuation of that second offer is
forwarded through the socket — a second offer for the same generation. -/
theorem second_room_users_reoffers :
    sOffering.peerConnection.signalingState = .haveLocalOffer ∧
    sOffering.peerConnection.localDescription = some offer0 ∧
    Eff.startCreateOffer ∈ (onRoomUsers sOffering ["peerA"]).2 ∧
    Eff.emit "offer" (.sdpP offer1) ∈ (createOfferThen sOffering offer1).2 := by
  refine ⟨rfl, rfl, by decide, by decide⟩

/-- C3 amended: the `room_users` handler consults no negotiation state at
all — whenever the member list is non-empty it starts `createOffer()`,
whose continuation always forwards the resulting offer, so a second
`room_users` event while Negotiating produces a second offer. -/
theorem room_users_always_offers (s : ClientState) (data : List String)
    (h : data ≠ []) :
    onRoomUsers s data =
      (s, [.log "Users in room:", .log "Creating offer...", .startCreateOffer]) ∧
    ∀ sdp : Sdp, Eff.emit "offer" (.sdpP sdp) ∈ (createOfferThen s sdp).2 := by
  constructor
  · have hl : 0 < data.length := List.length_pos.mpr h
    simp [onRoomUsers, createOfferCall, hl]
  · intro sdp
    simp [createOfferThen, offerThenBody]

/-- Witness for C3 amended, in the already-Negotiating state. -/
theorem room_users_always_offers_witness :
    onRoomUsers sOffering ["peerA"] =
      (sOffering, [.log "Users in room:", .log "Creating offer...", .startCreateOffer]) ∧
    Eff.emit "offer" (.sdpP offer1) ∈ (createOfferThen sOffering offer1).2 :=
  ⟨(room_users_always_offers sOffering ["peerA"] (by decide)).1,
   (room_users_always_offers sOffering ["peerA"] (by decide)).2 offer1⟩

/-- C4 counterexample: in the full trace of one `createOffer` resolution
cycle, the offer emission is not preceded by the resolution of the
`setLocalDescription` promise — the emit happens synchronously right
after the call is started, and the resolution lands only afterwards. -/
theorem offer_emitted_before_local_description_resolves :
    ¬ emitOnlyAfterResolve (createOfferFullTrace offer0) := by
  unfold emitOnlyAfterResolve
  decide

/-- C4 amended: for both the offer and the answer segment,
`setLocalDescription` is started but not awaited, and the description is
forwarded immediately: the trace is start, emit, resolve, so the emit
strictly precedes the resolution of the local-description application. -/
theorem emit_precedes_local_description_resolution (sdp ans : Sdp) :
    createOfferFullTrace sdp =
      [.startSetLocalDescription sdp, .emit "offer" (.sdpP sdp),
       .resolveSetLocalDescription sdp] ∧
    createAnswerFullTrace ans =
      [.log "Answer created", .startSetLocalDescription ans,
       .emit "answer" (.sdpP ans), .resolveSetLocalDescription ans] ∧
    (∃ i j : Fin (createOfferFullTrace sdp).length, i.val < j.val ∧
       isEmit ((createOfferFullTrace sdp).get i) = true ∧
       isResolveSLD ((createOfferFullTrace sdp).get j) = true) ∧
    (∃ i j : Fin (createAnswerFullTrace ans).length, i.val < j.val ∧
       isEmit ((createAnswerFullTrace ans).get i) = true ∧
       isResolveSLD ((createAnswerFullTrace ans).get j) = true) := by
  refine ⟨rfl, rfl, ⟨⟨1, ?_⟩, ⟨2, ?_⟩, ?_, rfl, rfl⟩, ⟨⟨2, ?_⟩, ⟨3, ?_⟩, ?_, rfl, rfl⟩⟩
  all_goals simp [createOfferFullTrace, createAnswerFullTrace,
    offerThenBody, answerThenBody]

/-- Helper: `setFirstTrackEnabled` realises exactly the
only-the-first-track-of-this-kind change described by
`onlyFirstEnabledSetB`. -/
theorem onlyFirstEnabledSetB_setFirstTrackEnabled (ts : List Track)
    (k : String) (b : Bool) :
    onlyFirstEnabledSetB k b ts (setFirstTrackEnabled ts k b) = true := by
  induction ts with
  | nil => rfl
  | cons t ts ih =>
    by_cases h : t.kind == k <;>
      simp [setFirstTrackEnabled, onlyFirstEnabledSetB, h, ih]


/-- Helper: when no track of kind `k` is present, the identity change
satisfies `onlyFirstEnabledSetB`. -/
theorem onlyFirstEnabledSetB_refl_of_no_kind (ts : List Track)
    (k : String) (b : Bool)
    (h : ∀ t ∈ ts, (t.kind == k) = false) :
    onlyFirstEnabledSetB k b ts ts = true := by
  induction ts with
  | nil => rfl
  | cons t ts ih =>
    have hk := h t (by simp)
    simp only [onlyFirstEnabledSetB, hk, Bool.false_eq_true, if_false,
      beq_self_eq_true, Bool.true_and]
    exact ih (fun u hu => h u (by simp [hu]))

/-- Helper: the full characterization of `toggleVideo` under a captured
stream — no emission, untouched connection, frame condition, and the
only-one-flag track change. -/
theorem toggleVideo_spec (s : ClientState) (stream : MediaStream)
    (h : s.localStream = some stream) :
    (toggleVideo s).2 = [] ∧
    (toggleVideo s).1.peerConnection = s.peerConnection ∧
    (toggleVideo s).1 =
      { s with
          localStream := (toggleVideo s).1.localStream
          isVideoEnabled := (toggleVideo s).1.isVideoEnabled
          toggleVideoBtnMuted := (toggleVideo s).1.toggleVideoBtnMuted
          videoIconOn := (toggleVideo s).1.videoIconOn } ∧
    (∃ stream', (toggleVideo s).1.localStream = some stream' ∧
       onlyFirstEnabledSetB "video" (!s.isVideoEnabled)
         stream.tracks stream'.tracks = true) ∧
    (stream.getVideoTracks ≠ [] →
       (toggleVideo s).1.isVideoEnabled = !s.isVideoEnabled ∧
       (toggleVideo s).1.toggleVideoBtnMuted = s.isVideoEnabled ∧
       (toggleVideo s).1.videoIconOn = !s.isVideoEnabled) ∧
    (stream.getVideoTracks = [] → (toggleVideo s).1 = s) := by
  rcases hvt : stream.getVideoTracks with - | ⟨t, rest⟩
  · have hred : toggleVideo s = (s, []) := by
      simp [toggleVideo, h, hvt]
    have hnone : ∀ u ∈ stream.tracks, (u.kind == "video") = false := by
      intro u hu
      by_contra hcon
      have hmem : u ∈ stream.getVideoTracks := by
        rw [MediaStream.getVideoTracks, List.mem_filter]
        exact ⟨hu, by simpa using hcon⟩
      rw [hvt] at hmem
      simp at hmem
    rw [hred]
    exact ⟨rfl, rfl, rfl,
      ⟨stream, h, onlyFirstEnabledSetB_refl_of_no_kind _ _ _ hnone⟩,
      fun hne => absurd rfl hne, fun _ => rfl⟩
  · have hred : toggleVideo s =
        ({ s with
            isVideoEnabled := !s.isVideoEnabled
            localStream :=
              some ⟨setFirstTrackEnabled stream.tracks "video" (!s.isVideoEnabled)⟩
            toggleVideoBtnMuted := !(!s.isVideoEnabled)
            videoIconOn := !s.isVideoEnabled }, []) := by
      simp [toggleVideo, h, hvt]
    rw [hred]
    refine ⟨rfl, rfl, rfl,
      ⟨⟨setFirstTrackEnabled stream.tracks "video" (!s.isVideoEnabled)⟩, rfl,
        onlyFirstEnabledSetB_setFirstTrackEnabled _ _ _⟩,
      fun _ => ⟨rfl, by simp, rfl⟩, fun hnil => ?_⟩
    simp at hnil

/-- Helper: the audio counterpart of `toggleVideo_spec`. -/
theorem toggleAudio_spec (s : ClientState) (stream : MediaStream)
    (h : s.localStream = some stream) :
    (toggleAudio s).2 = [] ∧
    (toggleAudio s).1.peerConnection = s.peerConnection ∧
    (toggleAudio s).1 =
      { s with
          localStream := (toggleAudio s).1.localStream
          isAudioEnabled := (toggleAudio s).1.isAudioEnabled
          toggleAudioBtnMuted := (toggleAudio s).1.toggleAudioBtnMuted
          audioIconOn := (toggleAudio s).1.audioIconOn } ∧
    (∃ stream', (toggleAudio s).1.localStream = some stream' ∧
       onlyFirstEnabledSetB "audio" (!s.isAudioEnabled)
         stream.tracks stream'.tracks = true) ∧
    (stream.getAudioTracks ≠ [] →
       (toggleAudio s).1.isAudioEnabled = !s.isAudioEnabled ∧
       (toggleAudio s).1.toggleAudioBtnMuted = s.isAudioEnabled ∧
       (toggleAudio s).1.audioIconOn = !s.isAudioEnabled) ∧
    (stream.getAudioTracks = [] → (toggleAudio s).1 = s) := by
  rcases hat : stream.getAudioTracks with - | ⟨t, rest⟩
  · have hred : toggleAudio s = (s, []) := by
      simp [toggleAudio, h, hat]
    have hnone : ∀ u ∈ stream.tracks, (u.kind == "audio") = false := by
      intro u hu
      by_contra hcon
      have hmem : u ∈ stream.getAudioTracks := by
        rw [MediaStream.getAudioTracks, List.mem_filter]
        exact ⟨hu, by simpa using hcon⟩
      rw [hat] at hmem
      simp at hmem
    rw [hred]
    exact ⟨rfl, rfl, rfl,
      ⟨stream, h, onlyFirstEnabledSetB_refl_of_no_kind _ _ _ hnone⟩,
      fun hne => absurd rfl hne, fun _ => rfl⟩
  · have hred : toggleAudio s =
        ({ s with
            isAudioEnabled := !s.isAudioEnabled
            localStream :=
              some ⟨setFirstTrackEnabled stream.tracks "audio" (!s.isAudioEnabled)⟩
            toggleAudioBtnMuted := !(!s.isAudioEnabled)
            audioIconOn := !s.isAudioEnabled }, []) := by
      simp [toggleAudio, h, hat]
    rw [hred]
    refine ⟨rfl, rfl, rfl,
      ⟨⟨setFirstTrackEnabled stream.tracks "audio" (!s.isAudioEnabled)⟩, rfl,
        onlyFirstEnabledSetB_setFirstTrackEnabled _ _ _⟩,
      fun _ => ⟨rfl, by simp, rfl⟩, fun hnil => ?_⟩
    simp at hnil

/-- C9: once a stream has been captured, each toggle produces no socket
emission, leaves the peer connection untouched (no renegotiation), leaves
every state component outside its own toggle cluster (stream, enabled
flag, button class, icons) unchanged, changes the track list only by
setting the enabled flag of the first track of its kind, and — when such
a track exists — flips the enabled flag together with its UI
reflections. -/
theorem toggle_track_is_purely_local (s : ClientState) (stream : MediaStream)
    (h : s.localStream = some stream) :
    ((toggleVideo s).2 = [] ∧
     (toggleVideo s).1.peerConnection = s.peerConnection ∧
     (toggleVideo s).1 =
       { s with
           localStream := (toggleVideo s).1.localStream
           isVideoEnabled := (toggleVideo s).1.isVideoEnabled
           toggleVideoBtnMuted := (toggleVideo s).1.toggleVideoBtnMuted
           videoIconOn := (toggleVideo s).1.videoIconOn } ∧
     (∃ stream', (toggleVideo s).1.localStream = some stream' ∧
        onlyFirstEnabledSetB "video" (!s.isVideoEnabled)
          stream.tracks stream'.tracks = true) ∧
     (stream.getVideoTracks ≠ [] →
        (toggleVideo s).1.isVideoEnabled = !s.isVideoEnabled ∧
        (toggleVideo s).1.toggleVideoBtnMuted = s.isVideoEnabled ∧
        (toggleVideo s).1.videoIconOn = !s.isVideoEnabled) ∧
     (stream.getVideoTracks = [] → (toggleVideo s).1 = s)) ∧
    ((toggleAudio s).2 = [] ∧
     (toggleAudio s).1.peerConnection = s.peerConnection ∧
     (toggleAudio s).1 =
       { s with
           localStream := (toggleAudio s).1.localStream
           isAudioEnabled := (toggleAudio s).1.isAudioEnabled
           toggleAudioBtnMuted := (toggleAudio s).1.toggleAudioBtnMuted
           audioIconOn := (toggleAudio s).1.audioIconOn } ∧
     (∃ stream', (toggleAudio s).1.localStream = some stream' ∧
        onlyFirstEnabledSetB "audio" (!s.isAudioEnabled)
          stream.tracks stream'.tracks = true) ∧
     (stream.getAudioTracks ≠ [] →
        (toggleAudio s).1.isAudioEnabled = !s.isAudioEnabled ∧
        (toggleAudio s).1.toggleAudioBtnMuted = s.isAudioEnabled ∧
        (toggleAudio s).1.audioIconOn = !s.isAudioEnabled) ∧
     (stream.getAudioTracks = [] → (toggleAudio s).1 = s)) :=
  ⟨toggleVideo_spec s stream h, toggleAudio_spec s stream h⟩

/-- Witness for C9 in the joined state with a two-track stream. -/
theorem toggle_track_is_purely_local_witness :
    (toggleVideo sOffering).2 = [] ∧
    (toggleVideo sOffering).1.peerConnection = sOffering.peerConnection ∧
    (toggleVideo sOffering).1.isVideoEnabled = !sOffering.isVideoEnabled ∧
    (toggleAudio sOffering).2 = [] ∧
    (toggleAudio sOffering).1.peerConnection = sOffering.peerConnection ∧
    (toggleAudio sOffering).1.isAudioEnabled = !sOffering.isAudioEnabled := by
  obtain ⟨⟨v1, v2, -, -, v5, -⟩, ⟨a1, a2, -, -, a5, -⟩⟩ :=
    toggle_track_is_purely_local sOffering demoStream rfl
  exact ⟨v1, v2, (v5 (by decide)).1, a1, a2, (a5 (by decide)).1⟩

/-- Witness for C8 at a concrete permission-denied rejection. -/
theorem init_media_failure_stays_idle_witness :
    (init initialClientState (.err "NotAllowedError" "Permission denied") "k3j9q").1 =
      { initialClientState with
          errorMsg := mediaErrorMessage "NotAllowedError" "Permission denied" } ∧
    mediaErrorMessage "NotAllowedError" "Permission denied" ≠ "" :=
  ⟨(init_media_failure_stays_idle initialClientState
      "NotAllowedError" "Permission denied" "k3j9q").1,
   (init_media_failure_stays_idle initialClientState
      "NotAllowedError" "Permission denied" "k3j9q").2.2⟩
